import Mathlib

/-!
Verification of the energy-optimization dashboard's two computational units
(src/energy_optimize_Demo.py): the synthetic telemetry generator
`generate_resource_data` (lines 50-79) and the inline ROI / savings
estimator of the `main` function's ROI tab (lines 289-336).

Modelling conventions:
* Python floats are modelled by exact rationals (ℚ): all formulas in the
  source are elementary arithmetic, so the real-valued semantics is ℚ-exact.
* `random.gauss(...)` draws are unseeded runtime randomness; each draw site
  is modelled as an oracle function `ℕ → ℚ` (indexed by the sample index),
  collected in the `NoiseDraws` structure.  A theorem quantifying over all
  oracles covers every possible run.
* `np.sin(2 * pi * i / 24)` is transcendental; its value at index `i` is
  supplied by an oracle `sinv : ℕ → ℚ`.  Where a bound on it matters the
  hypothesis `|sinv i| ≤ 1` (true of the real sine) is taken explicitly.
* `pd.date_range(start='2025-01-01', periods=168, freq='H')` yields hourly
  timestamps; timestamps are modelled as whole hours elapsed since
  2025-01-01 00:00, the fixed start date of the source.
-/

set_option autoImplicit false

namespace EnergyOpt

/-- One record of `generate_resource_data` (source lines 67-77).
`timestamp` is in hours since 2025-01-01 00:00. -/
structure TelemetrySample where
  timestamp : ℕ
  cpu_usage : ℚ
  memory_usage : ℚ
  gpu_usage : ℚ
  cpu_waste : ℚ
  memory_waste : ℚ
  gpu_waste : ℚ
  energy_cost : ℚ
  carbon_footprint : ℚ
deriving DecidableEq, Repr

/-- The `random.gauss` draws of one run of `generate_resource_data`, one
oracle per call site, indexed by the loop index `i`. -/
structure NoiseDraws where
  gpuBase : ℕ → ℚ
  cpuWasteN : ℕ → ℚ
  memWasteN : ℕ → ℚ
  gpuWasteN : ℕ → ℚ
  cpuN : ℕ → ℚ
  memN : ℕ → ℚ
  energyN : ℕ → ℚ
  carbonN : ℕ → ℚ

/-- Hours since 2025-01-01 00:00 of the first timestamp produced by
`pd.date_range(start='2025-01-01', ...)` (source line 53). -/
def startTime : ℕ := 0

/-- Source line 58: `base_cpu = 45 + 20 * np.sin(2 * np.pi * i / 24)`. -/
def base_cpu (sinv : ℕ → ℚ) (i : ℕ) : ℚ := 45 + 20 * sinv i

/-- Source line 59: `base_memory = 60 + 15 * np.sin(2 * np.pi * i / 24)`. -/
def base_memory (sinv : ℕ → ℚ) (i : ℕ) : ℚ := 60 + 15 * sinv i

/-- Source line 60: `base_gpu = max(0, 30 + 40 * np.sin(...) + random.gauss(0, 10))`. -/
def base_gpu (sinv : ℕ → ℚ) (nz : NoiseDraws) (i : ℕ) : ℚ :=
  max 0 (30 + 40 * sinv i + nz.gpuBase i)

/-- The record appended at loop index `i` (source lines 56-77). -/
def mkSample (sinv : ℕ → ℚ) (nz : NoiseDraws) (i : ℕ) : TelemetrySample :=
  { timestamp := startTime + i
    cpu_usage := min 95 (base_cpu sinv i + nz.cpuN i)
    memory_usage := min 95 (base_memory sinv i + nz.memN i)
    gpu_usage := min 95 (base_gpu sinv nz i)
    cpu_waste := max 0 (nz.cpuWasteN i)
    memory_waste := max 0 (nz.memWasteN i)
    gpu_waste := max 0 (nz.gpuWasteN i)
    energy_cost := (base_cpu sinv i + base_memory sinv i + base_gpu sinv nz i) * 0.12
      + nz.energyN i
    carbon_footprint := (base_cpu sinv i + base_memory sinv i + base_gpu sinv nz i) * 0.05
      + nz.carbonN i }

/-- `generate_resource_data` (source lines 50-79): one sample per hour over
168 hours (7 days), in loop order. -/
def generate_resource_data (sinv : ℕ → ℚ) (nz : NoiseDraws) : List TelemetrySample :=
  (List.range 168).map (mkSample sinv nz)

/-- Source line 294: `optimization_potential = (85 - current_efficiency) / 85 * 100`. -/
def optimization_potential (current_efficiency : ℚ) : ℚ :=
  (85 - current_efficiency) / 85 * 100

/-- Source line 295: `monthly_savings = avg_monthly_cost * (optimization_potential / 100) * 0.3`. -/
def monthly_savings (avg_monthly_cost current_efficiency : ℚ) : ℚ :=
  avg_monthly_cost * (optimization_potential current_efficiency / 100) * 0.3

/-- Source line 296: `annual_savings = monthly_savings * 12`. -/
def annual_savings (avg_monthly_cost current_efficiency : ℚ) : ℚ :=
  monthly_savings avg_monthly_cost current_efficiency * 12

/-- Source line 306: `implementation_cost = 25000`. -/
def implementation_cost : ℚ := 25000

/-- Source line 307:
`roi_months = implementation_cost / monthly_savings if monthly_savings > 0 else 0`. -/
def roi_months (avg_monthly_cost current_efficiency : ℚ) : ℚ :=
  if monthly_savings avg_monthly_cost current_efficiency > 0 then
    implementation_cost / monthly_savings avg_monthly_cost current_efficiency
  else 0

/-- Source line 327: `energy_saved = annual_savings * 0.8`. -/
def energy_saved (avg_monthly_cost current_efficiency : ℚ) : ℚ :=
  annual_savings avg_monthly_cost current_efficiency * 0.8

/-- Source line 331: `carbon_reduced = energy_saved * 0.4`. -/
def carbon_reduced (avg_monthly_cost current_efficiency : ℚ) : ℚ :=
  energy_saved avg_monthly_cost current_efficiency * 0.4

/-- Source line 335: `trees_equivalent = carbon_reduced / 21`. -/
def trees_equivalent (avg_monthly_cost current_efficiency : ℚ) : ℚ :=
  carbon_reduced avg_monthly_cost current_efficiency / 21

/-- Source lines 312-313: `months = list(range(1, 13))` and
`cumulative_savings = [monthly_savings * i for i in months]`. -/
def cumulative_savings (avg_monthly_cost current_efficiency : ℚ) : List ℚ :=
  (List.range 12).map
    (fun i => monthly_savings avg_monthly_cost current_efficiency * (((i + 1 : ℕ)) : ℚ))

/-- All outputs of the ROI tab, bundled. -/
structure ROIResult where
  optimization_potential_pct : ℚ
  monthly_savings : ℚ
  annual_savings : ℚ
  roi_months : ℚ
  energy_saved_kwh : ℚ
  carbon_reduced_kg : ℚ
  trees_equivalent : ℚ
  cumulative_savings : List ℚ
deriving DecidableEq, Repr

/-- The savings estimator: the computation of the ROI tab (source lines
289-336) as a function of its three user inputs.  `num_servers` is read
from the UI at line 289 but never used in any formula of the tab. -/
def estimate (num_servers : ℕ) (avg_monthly_cost current_efficiency : ℚ) : ROIResult :=
  { optimization_potential_pct := optimization_potential current_efficiency
    monthly_savings := monthly_savings avg_monthly_cost current_efficiency
    annual_savings := annual_savings avg_monthly_cost current_efficiency
    roi_months := roi_months avg_monthly_cost current_efficiency
    energy_saved_kwh := energy_saved avg_monthly_cost current_efficiency
    carbon_reduced_kg := carbon_reduced avg_monthly_cost current_efficiency
    trees_equivalent := trees_equivalent avg_monthly_cost current_efficiency
    cumulative_savings := cumulative_savings avg_monthly_cost current_efficiency }

/-- One-decimal fixed-point rendering of a rational, modelling the Python
f-string `f"{x:.1f}"` (rounding to the nearest tenth). -/
def formatFixed1 (q : ℚ) : String :=
  let n : ℤ := ⌊q * 10 + 1 / 2⌋
  let a : ℕ := n.natAbs
  (if n < 0 then "-" else "") ++ toString (a / 10) ++ "." ++ toString (a % 10)

/-- Source line 309: the string shown for the ROI timeline metric,
`f"{roi_months:.1f} months"`. -/
def roi_display (avg_monthly_cost current_efficiency : ℚ) : String :=
  formatFixed1 (roi_months avg_monthly_cost current_efficiency) ++ " months"

/-- The all-zero sine oracle (agrees with the real sine at indices that are
multiples of 12, where `sin(2 pi i / 24) = 0`). -/
def zeroSin : ℕ → ℚ := fun _ => 0

/-- The all-zero noise oracle. -/
def zeroNoise : NoiseDraws :=
  { gpuBase := fun _ => 0, cpuWasteN := fun _ => 0, memWasteN := fun _ => 0
    gpuWasteN := fun _ => 0, cpuN := fun _ => 0, memN := fun _ => 0
    energyN := fun _ => 0, carbonN := fun _ => 0 }

/-- A noise oracle whose cpu-usage draw is -100 (a possible, if extreme,
value of the unbounded gaussian `random.gauss(0, 5)`); all other draws 0. -/
def negNoise : NoiseDraws := { zeroNoise with cpuN := fun _ => -100 }

/-- Closed form of `monthly_savings` used by several proofs. -/
theorem monthly_savings_eq (c e : ℚ) :
    monthly_savings c e = c * (85 - e) * (3 / 850) := by
  unfold monthly_savings optimization_potential
  ring

/-- C3: at inputs (50, 15000, 65) the estimator yields
optimization_potential_pct = 400/17 ≈ 23.53, monthly_savings = 18000/17 ≈
1058.82 and annual_savings = 216000/17 ≈ 12705.88, each within 1/200 of the
quoted rounded value. -/
theorem C3_estimate_at_50_15000_65 :
    (estimate 50 15000 65).optimization_potential_pct = 400 / 17 ∧
    (estimate 50 15000 65).monthly_savings = 18000 / 17 ∧
    (estimate 50 15000 65).annual_savings = 216000 / 17 ∧
    |(estimate 50 15000 65).optimization_potential_pct - 23.53| ≤ 1 / 200 ∧
    |(estimate 50 15000 65).monthly_savings - 1058.82| ≤ 1 / 200 ∧
    |(estimate 50 15000 65).annual_savings - 12705.88| ≤ 1 / 200 := by
  norm_num [estimate, annual_savings, monthly_savings, optimization_potential, abs_le]

/-- C4: for every valid input the estimator satisfies
energy_saved_kwh = annual_savings * 0.8, carbon_reduced_kg =
energy_saved_kwh * 0.4 (hence carbon_reduced_kg = 0.32 * annual_savings),
and trees_equivalent = carbon_reduced_kg / 21. -/
theorem C4_carbon_energy_relations (ns : ℕ) (c e : ℚ) (hns : 0 < ns)
    (hc : 0 < c) (he1 : 30 ≤ e) (he2 : e ≤ 90) :
    (estimate ns c e).energy_saved_kwh = (estimate ns c e).annual_savings * 0.8 ∧
    (estimate ns c e).carbon_reduced_kg = (estimate ns c e).energy_saved_kwh * 0.4 ∧
    (estimate ns c e).carbon_reduced_kg = 0.32 * (estimate ns c e).annual_savings ∧
    (estimate ns c e).trees_equivalent = (estimate ns c e).carbon_reduced_kg / 21 := by
  refine ⟨rfl, rfl, ?_, rfl⟩
  simp only [estimate, carbon_reduced, energy_saved]
  ring

/-- C4 witness at (50, 15000, 65). -/
theorem C4_carbon_energy_relations_witness :
    0 < 50 ∧ (0 : ℚ) < 15000 ∧ (30 : ℚ) ≤ 65 ∧ (65 : ℚ) ≤ 90 ∧
    (estimate 50 15000 65).carbon_reduced_kg = 0.32 * (estimate 50 15000 65).annual_savings :=
  ⟨by norm_num, by norm_num, by norm_num, by norm_num,
    (C4_carbon_energy_relations 50 15000 65 (by norm_num) (by norm_num)
      (by norm_num) (by norm_num)).2.2.1⟩

/-- C5: with the monthly cost fixed and positive, monthly_savings is
antitone in the efficiency: e1 < e2 implies
monthly_savings at e2 ≤ monthly_savings at e1. -/
theorem C5_monotone_in_efficiency (c e1 e2 : ℚ) (hc : 0 < c)
    (h30 : 30 ≤ e1) (h12 : e1 < e2) (h90 : e2 ≤ 90) :
    monthly_savings c e2 ≤ monthly_savings c e1 := by
  rw [monthly_savings_eq, monthly_savings_eq]
  have h : c * (85 - e2) ≤ c * (85 - e1) := by nlinarith
  linarith

/-- C5 witness: cost 15000, efficiencies 60 < 70. -/
theorem C5_monotone_in_efficiency_witness :
    (0 : ℚ) < 15000 ∧ (30 : ℚ) ≤ 60 ∧ (60 : ℚ) < 70 ∧ (70 : ℚ) ≤ 90 ∧
    monthly_savings 15000 70 ≤ monthly_savings 15000 60 :=
  ⟨by norm_num, by norm_num, by norm_num, by norm_num,
    C5_monotone_in_efficiency 15000 60 70 (by norm_num) (by norm_num)
      (by norm_num) (by norm_num)⟩

/-- C7: the estimator is deterministic: two calls with equal inputs return
equal outputs in every field. -/
theorem C7_deterministic (ns1 ns2 : ℕ) (c1 c2 e1 e2 : ℚ)
    (hns : ns1 = ns2) (hc : c1 = c2) (he : e1 = e2) :
    estimate ns1 c1 e1 = estimate ns2 c2 e2 := by
  subst hns; subst hc; subst he; rfl

/-- C7 witness at (50, 15000, 65) twice. -/
theorem C7_deterministic_witness :
    (50 : ℕ) = 50 ∧ (15000 : ℚ) = 15000 ∧ (65 : ℚ) = 65 ∧
    estimate 50 15000 65 = estimate 50 15000 65 :=
  ⟨rfl, rfl, rfl, C7_deterministic 50 50 15000 15000 65 65 rfl rfl rfl⟩

/-- C9: the estimator's outputs never depend on the server-count input:
two calls agreeing on cost and efficiency but with different server counts
return identical outputs in every field (the source reads num_servers at
line 289 and never uses it). -/
theorem C9_ignores_server_count (ns1 ns2 : ℕ) (c e : ℚ) (hne : ns1 ≠ ns2) :
    estimate ns1 c e = estimate ns2 c e := rfl

/-- C9 witness: server counts 1 and 2 at cost 15000, efficiency 65. -/
theorem C9_ignores_server_count_witness :
    (1 : ℕ) ≠ 2 ∧ estimate 1 15000 65 = estimate 2 15000 65 :=
  ⟨by decide, C9_ignores_server_count 1 2 15000 65 (by decide)⟩

/-- C2 counterexample: at server count 50, cost 15000 and efficiency 85
the code's monthly_savings is 0, but the ROI metric is rendered from the
numeric sentinel 0 as the string "0.0 months" (source line 307 returns 0,
line 309 formats it), not as the string "N/A". -/
theorem C2_counterexample :
    (estimate 50 15000 85).monthly_savings = 0 ∧
    (estimate 50 15000 85).roi_months = 0 ∧
    roi_display 15000 85 = "0.0 months" ∧
    roi_display 15000 85 ≠ "N/A" := by
  have hm : monthly_savings 15000 85 = 0 := by rw [monthly_savings_eq]; norm_num
  have hr : roi_months 15000 85 = 0 := by
    unfold roi_months
    rw [hm]
    norm_num
  have hd : roi_display 15000 85 = "0.0 months" := by
    unfold roi_display
    rw [hr]
    norm_num [formatFixed1]
    rfl
  exact ⟨hm, hr, hd, by rw [hd]; decide⟩

/-- C2 amended: for every positive server count and positive monthly cost,
the estimator at efficiency 85 yields monthly_savings = 0 and handles the
division by zero explicitly via the numeric sentinel roi_months = 0,
rendered as "0.0 months" (no runtime fault, no infinity or NaN, but not
the string "N/A"). -/
theorem C2_zero_savings_sentinel (ns : ℕ) (c : ℚ) (hns : 0 < ns) (hc : 0 < c) :
    (estimate ns c 85).monthly_savings = 0 ∧
    (estimate ns c 85).roi_months = 0 ∧
    roi_display c 85 = "0.0 months" := by
  have hm : monthly_savings c 85 = 0 := by rw [monthly_savings_eq]; ring
  have hr : roi_months c 85 = 0 := by
    unfold roi_months
    rw [hm]
    norm_num
  refine ⟨hm, hr, ?_⟩
  unfold roi_display
  rw [hr]
  norm_num [formatFixed1]
  rfl

/-- C2 witness at (50, 15000, 85). -/
theorem C2_zero_savings_sentinel_witness :
    0 < 50 ∧ (0 : ℚ) < 15000 ∧ (estimate 50 15000 85).roi_months = 0 :=
  ⟨by norm_num, by norm_num,
    (C2_zero_savings_sentinel 50 15000 (by norm_num) (by norm_num)).2.1⟩

/-- C8: for every valid input the cumulative-savings series has exactly 12
entries, and for every month m in 1..12 the entry at (1-based) position m
equals monthly_savings * m. -/
theorem C8_cumulative_savings_series (ns : ℕ) (c e : ℚ) (hns : 0 < ns)
    (hc : 0 < c) (he1 : 30 ≤ e) (he2 : e ≤ 90) (m : ℕ) (hm1 : 1 ≤ m) (hm2 : m ≤ 12) :
    (estimate ns c e).cumulative_savings.length = 12 ∧
    (estimate ns c e).cumulative_savings[m - 1]? =
      some (monthly_savings c e * m) := by
  constructor
  · show (cumulative_savings c e).length = 12
    rw [cumulative_savings, List.length_map, List.length_range]
  · have hlt : m - 1 < 12 := by omega
    show (cumulative_savings c e)[m - 1]? = some (monthly_savings c e * m)
    rw [cumulative_savings, List.getElem?_map, List.getElem?_range hlt]
    have hidx : m - 1 + 1 = m := by omega
    show some (monthly_savings c e * ((m - 1 + 1 : ℕ) : ℚ)) =
      some (monthly_savings c e * (m : ℚ))
    rw [hidx]

/-- C8 witness: month 12 at (50, 15000, 65). -/
theorem C8_cumulative_savings_series_witness :
    (1 : ℕ) ≤ 12 ∧ (12 : ℕ) ≤ 12 ∧
    (estimate 50 15000 65).cumulative_savings[(11 : ℕ)]? =
      some (monthly_savings 15000 65 * (12 : ℕ)) := by
  refine ⟨by norm_num, by norm_num, ?_⟩
  exact (C8_cumulative_savings_series 50 15000 65 (by norm_num) (by norm_num)
    (by norm_num) (by norm_num) 12 (by norm_num) (by norm_num)).2

/-- C10: for every positive cost and efficiency e with 85 < e ≤ 90 (a
reachable slider value), monthly and annual savings are strictly negative,
and roi_months takes the else-branch value 0 — the same value as in the
zero-savings case at efficiency 85. -/
theorem C10_negative_savings_above_85 (ns : ℕ) (c e : ℚ) (hc : 0 < c)
    (h85 : 85 < e) (h90 : e ≤ 90) :
    (estimate ns c e).monthly_savings < 0 ∧
    (estimate ns c e).annual_savings < 0 ∧
    (estimate ns c e).roi_months = 0 ∧
    (estimate ns c e).roi_months = (estimate ns c 85).roi_months := by
  have hm : monthly_savings c e < 0 := by
    rw [monthly_savings_eq]
    nlinarith
  have hr : roi_months c e = 0 := by
    unfold roi_months
    rw [if_neg (by linarith)]
  have hr85 : roi_months c 85 = 0 := by
    have hm85 : monthly_savings c 85 = 0 := by rw [monthly_savings_eq]; ring
    unfold roi_months
    rw [hm85]
    norm_num
  refine ⟨hm, ?_, hr, ?_⟩
  · show monthly_savings c e * 12 < 0
    nlinarith
  · show roi_months c e = roi_months c 85
    rw [hr, hr85]

/-- C10 witness at (50, 15000, 90). -/
theorem C10_negative_savings_above_85_witness :
    (0 : ℚ) < 15000 ∧ (85 : ℚ) < 90 ∧ (90 : ℚ) ≤ 90 ∧
    (estimate 50 15000 90).monthly_savings < 0 ∧
    (estimate 50 15000 90).roi_months = 0 :=
  ⟨by norm_num, by norm_num, by norm_num,
    (C10_negative_savings_above_85 50 15000 90 (by norm_num) (by norm_num)
      (by norm_num)).1,
    (C10_negative_savings_above_85 50 15000 90 (by norm_num) (by norm_num)
      (by norm_num)).2.2.1⟩

/-- C6: for every run (every sine and noise oracle) the generator returns
exactly 168 samples; the sample at index i has timestamp startTime + i
(hours since the fixed start date 2025-01-01 00:00), so consecutive
samples are exactly one hour apart and timestamps are strictly
increasing. -/
theorem C6_sample_count_and_timestamps (sinv : ℕ → ℚ) (nz : NoiseDraws) :
    (generate_resource_data sinv nz).length = 168 ∧
    (∀ i s, (generate_resource_data sinv nz)[i]? = some s →
      s.timestamp = startTime + i) ∧
    (∀ i s t, (generate_resource_data sinv nz)[i]? = some s →
      (generate_resource_data sinv nz)[i + 1]? = some t →
      t.timestamp = s.timestamp + 1 ∧ s.timestamp < t.timestamp) := by
  have hlen : (generate_resource_data sinv nz).length = 168 := by
    rw [generate_resource_data, List.length_map, List.length_range]
  have hts : ∀ i s, (generate_resource_data sinv nz)[i]? = some s →
      s.timestamp = startTime + i := by
    intro i s hs
    by_cases hi : i < 168
    · rw [generate_resource_data, List.getElem?_map, List.getElem?_range hi] at hs
      have hs2 : some (mkSample sinv nz i) = some s := hs
      obtain rfl : mkSample sinv nz i = s := Option.some.inj hs2
      rfl
    · have hnone : (generate_resource_data sinv nz)[i]? = none := by
        apply List.getElem?_eq_none
        rw [hlen]
        omega
      rw [hnone] at hs
      exact Option.noConfusion hs
  refine ⟨hlen, hts, ?_⟩
  intro i s t hsi hti
  have h1 := hts i s hsi
  have h2 := hts (i + 1) t hti
  omega

/-- C6 witness: the zero-oracle run has 168 samples, and its sample at
index 5 has timestamp startTime + 5. -/
theorem C6_sample_count_and_timestamps_witness :
    (generate_resource_data zeroSin zeroNoise).length = 168 ∧
    (mkSample zeroSin zeroNoise 5).timestamp = startTime + 5 := by
  refine ⟨(C6_sample_count_and_timestamps zeroSin zeroNoise).1, ?_⟩
  apply (C6_sample_count_and_timestamps zeroSin zeroNoise).2.1 5
  rw [generate_resource_data, List.getElem?_map,
    List.getElem?_range (by norm_num : (5 : ℕ) < 168)]
  rfl

/-- C1 counterexample: with the sine oracle 0 (the exact value of
sin(2*pi*i/24) at i = 0) and a cpu-noise draw of -100 (a possible value of
the unbounded gaussian at source line 69), the generated sample at index 0
has cpu_usage = -55 < 0: the source clamps cpu_usage only from above with
min(95, ...) and applies no lower clamp, so the claimed lower bound 0
fails. -/
theorem C1_counterexample :
    mkSample zeroSin negNoise 0 ∈ generate_resource_data zeroSin negNoise ∧
    (mkSample zeroSin negNoise 0).cpu_usage = -55 ∧
    ¬ (0 ≤ (mkSample zeroSin negNoise 0).cpu_usage) := by
  have hmem : mkSample zeroSin negNoise 0 ∈ generate_resource_data zeroSin negNoise :=
    List.mem_map.mpr ⟨0, List.mem_range.mpr (by norm_num), rfl⟩
  have hcpu : (mkSample zeroSin negNoise 0).cpu_usage = -55 := by
    show min 95 (base_cpu zeroSin 0 + negNoise.cpuN 0) = -55
    rw [base_cpu]
    norm_num [zeroSin, negNoise, zeroNoise, min_def]
  exact ⟨hmem, hcpu, by rw [hcpu]; norm_num⟩

/-- C1 amended: every sample produced by the generator has cpu_usage,
memory_usage and gpu_usage at most 95, and gpu_usage additionally at least
0 (its base is clamped with max(0, ...) at source line 60); cpu_usage and
memory_usage get no lower clamp in the source, so their lower bound 0 is
not an invariant (see the counterexample). -/
theorem C1_usage_bounds (sinv : ℕ → ℚ) (nz : NoiseDraws) (s : TelemetrySample)
    (hs : s ∈ generate_resource_data sinv nz) :
    s.cpu_usage ≤ 95 ∧ s.memory_usage ≤ 95 ∧ 0 ≤ s.gpu_usage ∧ s.gpu_usage ≤ 95 := by
  obtain ⟨i, hi, rfl⟩ := List.mem_map.1 hs
  refine ⟨min_le_left _ _, min_le_left _ _, ?_, min_le_left _ _⟩
  show (0 : ℚ) ≤ min 95 (base_gpu sinv nz i)
  exact le_min (by norm_num) (le_max_left _ _)

/-- C1 witness: the zero-oracle run's sample at index 0 is in the
generated list and satisfies the amended bounds. -/
theorem C1_usage_bounds_witness :
    mkSample zeroSin zeroNoise 0 ∈ generate_resource_data zeroSin zeroNoise ∧
    (mkSample zeroSin zeroNoise 0).cpu_usage ≤ 95 ∧
    0 ≤ (mkSample zeroSin zeroNoise 0).gpu_usage := by
  have hmem : mkSample zeroSin zeroNoise 0 ∈ generate_resource_data zeroSin zeroNoise :=
    List.mem_map.mpr ⟨0, List.mem_range.mpr (by norm_num), rfl⟩
  exact ⟨hmem, (C1_usage_bounds zeroSin zeroNoise _ hmem).1,
    (C1_usage_bounds zeroSin zeroNoise _ hmem).2.2.1⟩

end EnergyOpt
